import Mathlib

/-!
Verification of two U-Boot drivers:
  * `drivers/phy/allwinner/phy-sun50i-usb3.c` (Allwinner sun50i H6 USB3 PHY)
  * `drivers/pinctrl/qcom/pinctrl-apq8096.c`  (Qualcomm APQ8096 pinctrl)

The PHY driver is modelled as explicit state passing over a device state
(register block, clock gate, reset line) together with a trace of the
externally observable operations (clock enable/disable, reset
assert/de-assert, MMIO reads/writes).  The pinctrl driver is a pure
lookup component.  Register values are 32-bit and are represented as
`Nat` with the `< 2^32` bound carried as a hypothesis where it matters.
-/

/-! ## Register byte offsets (phy-sun50i-usb3.c) -/

def SUNXI_ISCR : Nat := 0x00

def SUNXI_PIPE_CLOCK_CONTROL : Nat := 0x14

def SUNXI_PHY_TUNE_LOW : Nat := 0x18

def SUNXI_PHY_TUNE_HIGH : Nat := 0x1c

def SUNXI_PHY_EXTERNAL_CONTROL : Nat := 0x20

/-! ## Bit-field constants (phy-sun50i-usb3.c) -/

def SUNXI_ISCR_FORCE_VBUS : Nat := 3 <<< 12

def SUNXI_PCC_PIPE_CLK_OPEN : Nat := 1 <<< 6

def SUNXI_PEC_EXTERN_VBUS : Nat := 3 <<< 1

def SUNXI_PEC_SSC_EN : Nat := 1 <<< 24

def SUNXI_PEC_REF_SSP_EN : Nat := 1 <<< 26

/-- Linux/U-Boot `GENMASK(h, l)`: bits `l` through `h` set. -/
def GENMASK (h l : Nat) : Nat := (2 ^ (h - l + 1) - 1) <<< l

def SUNXI_TX_DEEMPH_3P5DB (n : Nat) : Nat := n <<< 19

def SUNXI_TX_DEEMPH_3P5DB_MASK : Nat := GENMASK 24 19

def SUNXI_TX_DEEMPH_6DB (n : Nat) : Nat := n <<< 13

def SUNXI_TX_DEEMPH_6GB_MASK : Nat := GENMASK 18 13

def SUNXI_TX_SWING_FULL (n : Nat) : Nat := n <<< 6

def SUNXI_TX_SWING_FULL_MASK : Nat := GENMASK 12 6

def SUNXI_LOS_BIAS (n : Nat) : Nat := n <<< 3

def SUNXI_LOS_BIAS_MASK : Nat := GENMASK 5 3

def SUNXI_TXVBOOSTLVL (n : Nat) : Nat := n <<< 0

def SUNXI_TXVBOOSTLVL_MASK : Nat := GENMASK 2 0

/-- The union of the five tune-high bit-fields cleared and rewritten by
`sun50i_usb3_phy_open` (the mask in the `val &= ~(...)` statement). -/
def SUNXI_TUNE_HIGH_FIELDS_MASK : Nat :=
  SUNXI_TXVBOOSTLVL_MASK ||| SUNXI_LOS_BIAS_MASK |||
  SUNXI_TX_SWING_FULL_MASK ||| SUNXI_TX_DEEMPH_6GB_MASK |||
  SUNXI_TX_DEEMPH_3P5DB_MASK

/-- 32-bit one's complement, the C `~` on a `u32` operand. -/
def compl32 (m : Nat) : Nat := 0xFFFFFFFF ^^^ m

/-! ## MMIO model -/

/-- The MMIO register block: byte offset to current 32-bit value. -/
abbrev Regs := Nat → Nat

/-- `readl(addr)`. -/
def readl (r : Regs) (off : Nat) : Nat := r off

/-- `writel(val, addr)`. -/
def writel (r : Regs) (val off : Nat) : Regs :=
  fun o => if o = off then val else r o

/-- Externally observable operations of the PHY driver: calls into the
clock and reset frameworks and MMIO accesses on the register block. -/
inductive PhyOp where
  | clkEnable
  | clkDisable
  | resetDeassert
  | resetAssert
  | mmioRead (off : Nat)
  | mmioWrite (off : Nat) (val : Nat)
  deriving DecidableEq

def PhyOp.isMmioWrite : PhyOp → Bool
  | .mmioWrite _ _ => true
  | _ => false

def PhyOp.isMmioRead : PhyOp → Bool
  | .mmioRead _ => true
  | _ => false

/-- Mutable device state of the PHY: register block contents, whether the
gating clock is enabled, whether the reset line is asserted. -/
structure PhyState where
  regs : Regs
  clkEnabled : Bool
  resetAsserted : Bool

/-- Environment of one `init` call: the return codes the clock and reset
frameworks would give for `clk_prepare_enable` / `reset_deassert`
(0 = success, nonzero = error, as in C). -/
structure PhyEnv where
  clkEnableRet : Int
  resetDeassertRet : Int

/-- `sun50i_usb3_phy_open`: the fixed tuning sequence, translated
statement by statement; returns the new register block and the trace of
MMIO accesses in program order. -/
def sun50i_usb3_phy_open (r : Regs) : Regs × List PhyOp :=
  let vEC := readl r SUNXI_PHY_EXTERNAL_CONTROL ||| SUNXI_PEC_EXTERN_VBUS |||
    (SUNXI_PEC_SSC_EN ||| SUNXI_PEC_REF_SSP_EN)
  let r1 := writel r vEC SUNXI_PHY_EXTERNAL_CONTROL
  let vPCC := readl r1 SUNXI_PIPE_CLOCK_CONTROL ||| SUNXI_PCC_PIPE_CLK_OPEN
  let r2 := writel r1 vPCC SUNXI_PIPE_CLOCK_CONTROL
  let vISCR := readl r2 SUNXI_ISCR ||| SUNXI_ISCR_FORCE_VBUS
  let r3 := writel r2 vISCR SUNXI_ISCR
  let r4 := writel r3 0x0047fc87 SUNXI_PHY_TUNE_LOW
  let vTH := readl r4 SUNXI_PHY_TUNE_HIGH &&& compl32 SUNXI_TUNE_HIGH_FIELDS_MASK |||
    SUNXI_TXVBOOSTLVL 0x7 ||| SUNXI_LOS_BIAS 0x7 ||| SUNXI_TX_SWING_FULL 0x55 |||
    SUNXI_TX_DEEMPH_6DB 0x20 ||| SUNXI_TX_DEEMPH_3P5DB 0x15
  let r5 := writel r4 vTH SUNXI_PHY_TUNE_HIGH
  (r5,
   [PhyOp.mmioRead SUNXI_PHY_EXTERNAL_CONTROL,
    PhyOp.mmioWrite SUNXI_PHY_EXTERNAL_CONTROL vEC,
    PhyOp.mmioRead SUNXI_PIPE_CLOCK_CONTROL,
    PhyOp.mmioWrite SUNXI_PIPE_CLOCK_CONTROL vPCC,
    PhyOp.mmioRead SUNXI_ISCR,
    PhyOp.mmioWrite SUNXI_ISCR vISCR,
    PhyOp.mmioWrite SUNXI_PHY_TUNE_LOW 0x0047fc87,
    PhyOp.mmioRead SUNXI_PHY_TUNE_HIGH,
    PhyOp.mmioWrite SUNXI_PHY_TUNE_HIGH vTH])

/-- `sun50i_usb3_phy_init`: enable the clock (propagating its error),
de-assert reset (on error, disable the clock again and propagate), then
run the tuning sequence.  Returns the C `int` result, the final device
state, and the trace of observable operations. -/
def sun50i_usb3_phy_init (env : PhyEnv) (s : PhyState) : Int × PhyState × List PhyOp :=
  if env.clkEnableRet ≠ 0 then
    (env.clkEnableRet, s, [PhyOp.clkEnable])
  else
    let s1 : PhyState := { s with clkEnabled := true }
    if env.resetDeassertRet ≠ 0 then
      (env.resetDeassertRet, { s1 with clkEnabled := false },
       [PhyOp.clkEnable, PhyOp.resetDeassert, PhyOp.clkDisable])
    else
      let s2 : PhyState := { s1 with resetAsserted := false }
      let o := sun50i_usb3_phy_open s2.regs
      (0, { s2 with regs := o.1 },
       [PhyOp.clkEnable, PhyOp.resetDeassert] ++ o.2)

/-- `sun50i_usb3_phy_exit`: assert reset, disable the clock, return 0. -/
def sun50i_usb3_phy_exit (s : PhyState) : Int × PhyState × List PhyOp :=
  (0, { s with resetAsserted := true, clkEnabled := false },
   [PhyOp.resetAssert, PhyOp.clkDisable])

/-- Result code of an `init` call. -/
def phyInitRet (env : PhyEnv) (s : PhyState) : Int :=
  (sun50i_usb3_phy_init env s).1

/-- Device state after an `init` call. -/
def phyInitState (env : PhyEnv) (s : PhyState) : PhyState :=
  (sun50i_usb3_phy_init env s).2.1

/-- Trace of observable operations of an `init` call. -/
def phyInitTrace (env : PhyEnv) (s : PhyState) : List PhyOp :=
  (sun50i_usb3_phy_init env s).2.2

/-! ## Pinctrl driver (pinctrl-apq8096.c) -/

def MAX_PIN_NAME_LEN : Nat := 32

/-- The seven literal special-function pin names (`msm_pinctrl_pins`). -/
def msm_pinctrl_pins : List String :=
  ["SDC1_CLK", "SDC1_CMD", "SDC1_DATA", "SDC2_CLK", "SDC2_CMD", "SDC2_DATA",
   "SDC1_RCLK"]

/-- One entry of the function table: name plus mux value. -/
structure pinctrl_function where
  name : String
  val : Nat
  deriving DecidableEq

/-- `msm_pinctrl_functions`: single entry. -/
def msm_pinctrl_functions : List pinctrl_function :=
  [{ name := "blsp_uart8", val := 2 }]

/-- Model of `snprintf(pin_name, n, "GPIO_%u", selector)`: the formatted
string, truncated to at most `n - 1` characters (snprintf always leaves
room for the terminating NUL inside the `n`-byte buffer). -/
def snprintf_gpio (n : Nat) (selector : Nat) : String :=
  ("GPIO_" ++ toString selector).take (n - 1)

/-- `apq8096_get_function_name`.  The C code indexes the table without a
bounds check (out of range is undefined behaviour); an out-of-range
selector is modelled by a default entry. -/
def apq8096_get_function_name (selector : Nat) : String :=
  (msm_pinctrl_functions.getD selector { name := "", val := 0 }).name

/-- `apq8096_get_pin_name`.  Below 150 the name is formatted into the
32-byte scratch buffer; otherwise the table is indexed without a bounds
check (out of range is undefined behaviour, modelled by a default). -/
def apq8096_get_pin_name (selector : Nat) : String :=
  if selector < 150 then snprintf_gpio MAX_PIN_NAME_LEN selector
  else msm_pinctrl_pins.getD (selector - 150) ""

/-- `apq8096_get_function_mux`, same unchecked indexing as the name. -/
def apq8096_get_function_mux (selector : Nat) : Nat :=
  (msm_pinctrl_functions.getD selector { name := "", val := 0 }).val

/-- The fields of `apq8096_data` relevant here (`pin_data.pin_count` and
`functions_count`). -/
structure msm_pinctrl_data where
  pin_count : Nat
  functions_count : Nat
  deriving DecidableEq

def apq8096_data : msm_pinctrl_data :=
  { pin_count := 157, functions_count := msm_pinctrl_functions.length }

/-! ## Helper lemmas -/

set_option maxRecDepth 10000

/-- Value of the tune-high register after a successful `init`: the five
target fields (bits 0-24) are replaced by the constant `0xAC157F`, the
remaining bits are taken from the old value masked by `0xFE000000`. -/
theorem tuneHigh_after_init (env : PhyEnv) (s : PhyState)
    (h1 : env.clkEnableRet = 0) (h2 : env.resetDeassertRet = 0) :
    (phyInitState env s).regs SUNXI_PHY_TUNE_HIGH =
      (s.regs SUNXI_PHY_TUNE_HIGH &&& 0xFE000000) ||| 0xAC157F := by
  have hc : compl32 SUNXI_TUNE_HIGH_FIELDS_MASK = 0xFE000000 := by decide
  simp [phyInitState, sun50i_usb3_phy_init, sun50i_usb3_phy_open, h1, h2,
    readl, writel, hc, SUNXI_PHY_TUNE_HIGH, SUNXI_PHY_TUNE_LOW, SUNXI_ISCR,
    SUNXI_PIPE_CLOCK_CONTROL, SUNXI_PHY_EXTERNAL_CONTROL,
    SUNXI_TXVBOOSTLVL, SUNXI_LOS_BIAS, SUNXI_TX_SWING_FULL,
    SUNXI_TX_DEEMPH_6DB, SUNXI_TX_DEEMPH_3P5DB, Nat.or_assoc]

/-- Extracting a field `msk` disjoint from `M` out of `(v &&& M) ||| C`
sees only the bits of `C`. -/
theorem masked_or_and (v M C msk : Nat) (hM : M &&& msk = 0) :
    ((v &&& M) ||| C) &&& msk = C &&& msk := by
  apply Nat.eq_of_testBit_eq
  intro i
  have h0 : (M.testBit i && msk.testBit i) = false := by
    rw [← Nat.testBit_and, hM, Nat.zero_testBit]
  simp only [Nat.testBit_and, Nat.testBit_or]
  cases hv : Nat.testBit v i <;> cases hm : Nat.testBit M i <;>
    cases hk : Nat.testBit msk i <;> simp_all

/-- Every bit outside the five tune-high fields of the written value
`(v &&& 0xFE000000) ||| 0xAC157F` agrees with the old value `v`. -/
theorem tuneHigh_bit_preserved (v i : Nat) (hv : v < 2 ^ 32)
    (hi : Nat.testBit SUNXI_TUNE_HIGH_FIELDS_MASK i = false) :
    Nat.testBit ((v &&& 0xFE000000) ||| 0xAC157F) i = Nat.testBit v i := by
  have hmask : SUNXI_TUNE_HIGH_FIELDS_MASK = 2 ^ 25 - 1 := by decide
  have h25 : 25 ≤ i := by
    by_contra hlt
    push_neg at hlt
    rw [hmask, Nat.testBit_two_pow_sub_one] at hi
    simp [hlt] at hi
  have hC : Nat.testBit 0xAC157F i = false :=
    Nat.testBit_lt_two_pow (lt_of_lt_of_le (by norm_num)
      (Nat.pow_le_pow_right (by norm_num) h25))
  simp only [Nat.testBit_and, Nat.testBit_or, hC, Bool.or_false]
  cases hvb : Nat.testBit v i with
  | false => simp
  | true =>
    have hi32 : i < 32 := by
      by_contra h32
      push_neg at h32
      have hfalse : Nat.testBit v i = false :=
        Nat.testBit_lt_two_pow (lt_of_lt_of_le hv
          (Nat.pow_le_pow_right (by norm_num) h32))
      simp [hfalse] at hvb
    have hM : Nat.testBit 0xFE000000 i = true := by
      interval_cases i <;> decide
    simp [hM]

/-! ## Claim theorems -/

/-- Claim C1: if the clock enable succeeds and the reset de-assert fails,
`init` returns the reset error, the clock is disabled again before
returning (the trace is enable, de-assert, disable), no register of the
MMIO block is written, and the state remains Off (clock disabled, reset
line unchanged). -/
theorem sun50i_usb3_phy_init_reset_fail_rollback (env : PhyEnv) (s : PhyState)
    (h1 : env.clkEnableRet = 0) (h2 : env.resetDeassertRet ≠ 0) :
    phyInitRet env s = env.resetDeassertRet ∧
    (phyInitState env s).clkEnabled = false ∧
    (phyInitState env s).regs = s.regs ∧
    (phyInitState env s).resetAsserted = s.resetAsserted ∧
    phyInitTrace env s = [PhyOp.clkEnable, PhyOp.resetDeassert, PhyOp.clkDisable] := by
  simp [phyInitRet, phyInitState, phyInitTrace, sun50i_usb3_phy_init, h1, h2]

/-- Witness for C1 at the concrete environment `(0, -22)`. -/
theorem sun50i_usb3_phy_init_reset_fail_rollback_witness :
    ((0 : Int) = 0) ∧ ((-22 : Int) ≠ 0) ∧
    phyInitRet ⟨0, -22⟩ ⟨fun _ => 0, false, true⟩ = -22 :=
  ⟨rfl, by decide,
   (sun50i_usb3_phy_init_reset_fail_rollback ⟨0, -22⟩ ⟨fun _ => 0, false, true⟩
     rfl (by decide)).1⟩

/-- Claim C2: if the clock enable fails, `init` returns that error, the
trace is the single clock-enable call (reset is never touched, no MMIO
access), and the device state is unchanged. -/
theorem sun50i_usb3_phy_init_clk_fail (env : PhyEnv) (s : PhyState)
    (h : env.clkEnableRet ≠ 0) :
    phyInitRet env s = env.clkEnableRet ∧
    phyInitState env s = s ∧
    phyInitTrace env s = [PhyOp.clkEnable] := by
  simp [phyInitRet, phyInitState, phyInitTrace, sun50i_usb3_phy_init, h]

/-- Witness for C2 at the concrete environment `(-16, 0)`. -/
theorem sun50i_usb3_phy_init_clk_fail_witness :
    ((-16 : Int) ≠ 0) ∧
    phyInitRet ⟨-16, 0⟩ ⟨fun _ => 0, false, true⟩ = -16 :=
  ⟨by decide,
   (sun50i_usb3_phy_init_clk_fail ⟨-16, 0⟩ ⟨fun _ => 0, false, true⟩ (by decide)).1⟩

/-- Claim C3: for every initial register state (32-bit tune-high value),
after a successful `init` the five target bit-fields of the tune-high
register hold exactly 0x7, 0x7, 0x55, 0x20, 0x15 in their field
positions, and every bit outside those five fields keeps its pre-write
value. -/
theorem sun50i_usb3_phy_init_tune_high_fields (env : PhyEnv) (s : PhyState)
    (hWf : s.regs SUNXI_PHY_TUNE_HIGH < 2 ^ 32)
    (h1 : env.clkEnableRet = 0) (h2 : env.resetDeassertRet = 0) :
    (phyInitState env s).regs SUNXI_PHY_TUNE_HIGH &&& SUNXI_TXVBOOSTLVL_MASK =
      SUNXI_TXVBOOSTLVL 0x7 ∧
    (phyInitState env s).regs SUNXI_PHY_TUNE_HIGH &&& SUNXI_LOS_BIAS_MASK =
      SUNXI_LOS_BIAS 0x7 ∧
    (phyInitState env s).regs SUNXI_PHY_TUNE_HIGH &&& SUNXI_TX_SWING_FULL_MASK =
      SUNXI_TX_SWING_FULL 0x55 ∧
    (phyInitState env s).regs SUNXI_PHY_TUNE_HIGH &&& SUNXI_TX_DEEMPH_6GB_MASK =
      SUNXI_TX_DEEMPH_6DB 0x20 ∧
    (phyInitState env s).regs SUNXI_PHY_TUNE_HIGH &&& SUNXI_TX_DEEMPH_3P5DB_MASK =
      SUNXI_TX_DEEMPH_3P5DB 0x15 ∧
    ∀ i, Nat.testBit SUNXI_TUNE_HIGH_FIELDS_MASK i = false →
      Nat.testBit ((phyInitState env s).regs SUNXI_PHY_TUNE_HIGH) i =
        Nat.testBit (s.regs SUNXI_PHY_TUNE_HIGH) i := by
  have hv := tuneHigh_after_init env s h1 h2
  refine ⟨?_, ?_, ?_, ?_, ?_, ?_⟩
  · rw [hv, masked_or_and _ _ _ _ (by decide)]; decide
  · rw [hv, masked_or_and _ _ _ _ (by decide)]; decide
  · rw [hv, masked_or_and _ _ _ _ (by decide)]; decide
  · rw [hv, masked_or_and _ _ _ _ (by decide)]; decide
  · rw [hv, masked_or_and _ _ _ _ (by decide)]; decide
  · intro i hi
    rw [hv]
    exact tuneHigh_bit_preserved _ i hWf hi

/-- Witness for C3 with the all-zero register block. -/
theorem sun50i_usb3_phy_init_tune_high_fields_witness :
    ((fun _ => (0 : Nat)) SUNXI_PHY_TUNE_HIGH < 2 ^ 32) ∧
    (phyInitState ⟨0, 0⟩ ⟨fun _ => 0, false, true⟩).regs SUNXI_PHY_TUNE_HIGH &&&
      SUNXI_TXVBOOSTLVL_MASK = SUNXI_TXVBOOSTLVL 0x7 :=
  ⟨by decide,
   (sun50i_usb3_phy_init_tune_high_fields ⟨0, 0⟩ ⟨fun _ => 0, false, true⟩
     (by decide) rfl rfl).1⟩

/-- Claim C4: for every environment and starting state, `init`
immediately followed by `exit` leaves the reset line asserted and the
clock disabled, regardless of the tuning sequence and of whether `init`
succeeded. -/
theorem sun50i_usb3_phy_init_then_exit_off (env : PhyEnv) (s : PhyState) :
    ((sun50i_usb3_phy_exit (phyInitState env s)).2.1).resetAsserted = true ∧
    ((sun50i_usb3_phy_exit (phyInitState env s)).2.1).clkEnabled = false := by
  simp [sun50i_usb3_phy_exit]

/-- Counterexample for C5: on the success path the tuning sequence issues
4 MMIO reads, not 3 (the external-control, pipe-clock-control, ISCR and
tune-high registers are each read before being rewritten). -/
theorem sun50i_usb3_phy_open_reads_ne_three :
    (sun50i_usb3_phy_open (fun _ => 0)).2.countP PhyOp.isMmioRead ≠ 3 := by
  decide

/-- Claim C5 (amended: 4 reads instead of 3): on the success path, the
`init` trace is clock enable, reset de-assert, then the tuning-sequence
trace, and the tuning sequence performs exactly 5 MMIO writes and
exactly 4 MMIO reads, with every element of its trace an MMIO read or
write (no other observable side effect). -/
theorem sun50i_usb3_phy_open_rw_counts (env : PhyEnv) (s : PhyState)
    (h1 : env.clkEnableRet = 0) (h2 : env.resetDeassertRet = 0) :
    phyInitTrace env s =
      PhyOp.clkEnable :: PhyOp.resetDeassert :: (sun50i_usb3_phy_open s.regs).2 ∧
    (sun50i_usb3_phy_open s.regs).2.countP PhyOp.isMmioWrite = 5 ∧
    (sun50i_usb3_phy_open s.regs).2.countP PhyOp.isMmioRead = 4 ∧
    ∀ e ∈ (sun50i_usb3_phy_open s.regs).2,
      PhyOp.isMmioWrite e = true ∨ PhyOp.isMmioRead e = true := by
  refine ⟨?_, rfl, rfl, ?_⟩
  · simp [phyInitTrace, sun50i_usb3_phy_init, h1, h2]
  · intro e he
    simp [sun50i_usb3_phy_open] at he
    rcases he with h | h | h | h | h | h | h | h | h <;> subst h <;>
      simp [PhyOp.isMmioWrite, PhyOp.isMmioRead]

/-- Witness for the amended C5 with the all-zero register block. -/
theorem sun50i_usb3_phy_open_rw_counts_witness :
    ((0 : Int) = 0) ∧
    (sun50i_usb3_phy_open (PhyState.mk (fun _ => 0) false true).regs).2.countP
      PhyOp.isMmioWrite = 5 :=
  ⟨rfl,
   (sun50i_usb3_phy_open_rw_counts ⟨0, 0⟩ ⟨fun _ => 0, false, true⟩ rfl rfl).2.1⟩

/-- Claim C9: `exit` always succeeds: it returns 0 unconditionally, the
trace is reset assert then clock disable in that order, no MMIO access
happens, and the final state is Off (reset asserted, clock disabled,
registers untouched). -/
theorem sun50i_usb3_phy_exit_always_off (s : PhyState) :
    (sun50i_usb3_phy_exit s).1 = 0 ∧
    (sun50i_usb3_phy_exit s).2.2 = [PhyOp.resetAssert, PhyOp.clkDisable] ∧
    (sun50i_usb3_phy_exit s).2.1.resetAsserted = true ∧
    (sun50i_usb3_phy_exit s).2.1.clkEnabled = false ∧
    (sun50i_usb3_phy_exit s).2.1.regs = s.regs := by
  simp [sun50i_usb3_phy_exit]

/-- Claim C6: for every selector below 150, `get_pin_name` returns
`"GPIO_"` followed by the decimal rendering of the selector. -/
theorem apq8096_get_pin_name_gpio : ∀ s : Nat, s < 150 →
    apq8096_get_pin_name s = "GPIO_" ++ toString s := by
  decide

/-- Witness for C6 at selector 3. -/
theorem apq8096_get_pin_name_gpio_witness :
    3 < 150 ∧ apq8096_get_pin_name 3 = "GPIO_" ++ toString 3 :=
  ⟨by decide, apq8096_get_pin_name_gpio 3 (by decide)⟩

/-- Claim C7: for selectors 150 to 156, `get_pin_name` returns exactly
the entry at index `s - 150` of the named-pin table (the lookup is in
range), in particular `"SDC1_CLK"` at 150 and `"SDC1_RCLK"` at 156. -/
theorem apq8096_get_pin_name_named (s : Nat) (h1 : 150 ≤ s) (h2 : s < 157) :
    msm_pinctrl_pins[s - 150]? = some (apq8096_get_pin_name s) ∧
    apq8096_get_pin_name 150 = "SDC1_CLK" ∧
    apq8096_get_pin_name 156 = "SDC1_RCLK" := by
  refine ⟨?_, by decide, by decide⟩
  interval_cases s <;> decide

/-- Witness for C7 at selector 150. -/
theorem apq8096_get_pin_name_named_witness :
    (150 ≤ 150 ∧ 150 < 157) ∧ apq8096_get_pin_name 150 = "SDC1_CLK" :=
  ⟨⟨by decide, by decide⟩,
   (apq8096_get_pin_name_named 150 (by decide) (by decide)).2.1⟩

/-- Claim C8: the table constants: function 0 is named "blsp_uart8" with
mux value 2, the pin count is 157 and there is exactly one function. -/
theorem apq8096_data_constants :
    apq8096_get_function_name 0 = "blsp_uart8" ∧
    apq8096_get_function_mux 0 = 2 ∧
    apq8096_data.pin_count = 157 ∧
    apq8096_data.functions_count = 1 := by
  decide

/-- Claim C10: for every selector below 150, the formatted name
`"GPIO_<s>"` is at most 15 characters, so together with its terminating
NUL it fits strictly within the 32-byte scratch buffer, and the modelled
snprintf therefore performs no truncation: the returned string carries
the full decimal rendering of the selector. -/
theorem apq8096_pin_name_fits_buffer : ∀ s : Nat, s < 150 →
    ("GPIO_" ++ toString s).length ≤ 15 ∧
    ("GPIO_" ++ toString s).length + 1 ≤ MAX_PIN_NAME_LEN ∧
    snprintf_gpio MAX_PIN_NAME_LEN s = "GPIO_" ++ toString s := by
  decide

/-- Witness for C10 at selector 149 (longest name in range). -/
theorem apq8096_pin_name_fits_buffer_witness :
    149 < 150 ∧ snprintf_gpio MAX_PIN_NAME_LEN 149 = "GPIO_" ++ toString 149 :=
  ⟨by decide, (apq8096_pin_name_fits_buffer 149 (by decide)).2.2⟩
